import Mathlib

/-!
# Verification of `llama_index/query_engine/citation_query_engine.py`

A shallow embedding of the citation query engine: the citation-node builder
(`_create_citation_nodes`), the orchestration paths (`_query`, `_aquery`),
and `synthesize`/`asynthesize`, together with proofs of the specified
properties (citation numbering, offset arithmetic, event ordering,
sync/async equivalence, failure-path notifications).

External collaborators (the `TokenTextSplitter`, the retriever, the
response synthesizer, the callback manager) are not part of the source
file; they are modelled abstractly: the splitter as an arbitrary function
from configuration and text to chunk splits, the retriever and synthesizer
as arbitrary (deterministic) functions, and the callback manager as an
event trace accumulated by the engine.
-/

namespace CitationEngine

/-- One element of the list returned by
`TokenTextSplitter.split_text_with_overlaps`: a chunk of text plus the
number of characters it overlaps with the previous chunk
(`Optional[int]` in Python, so `Option Nat` here). -/
structure TextSplit where
  text_chunk : String
  num_char_overlap : Option Nat
deriving DecidableEq

/-- The payload of a `Node`: its text, optional metadata map (`extra_info`),
optional relationship map, and optional positional info dict (`node_info`,
holding integer entries such as `"start"` and `"end"`).
Dicts are modelled as association lists. -/
structure Node where
  text : String
  extra_info : Option (List (String × String))
  relationships : Option (List (String × String))
  node_info : Option (List (String × Int))
deriving DecidableEq

/-- Embedding of `NodeWithScore`: a node plus its optional retrieval score. -/
structure NodeWithScore where
  node : Node
  score : Option Int
deriving DecidableEq

/-- The behaviour of `TokenTextSplitter(chunk_size, chunk_overlap)
.split_text_with_overlaps(text)`, abstracted: the splitter is external to
the file under verification, so it is an arbitrary function from the two
configuration integers and the input text to a list of chunk splits. -/
def SplitterFamily : Type := Nat → Nat → String → List TextSplit

/-- The base offset the builder reads from a node, embedding
`start_offset = 0; if node.node.node_info: start_offset =
int(node.node.node_info.get("start", 0))`.  A `None` positional dict and
an empty positional dict are both falsy in Python, hence both give 0. -/
def nodeStartOffset (n : Node) : Int :=
  match n.node_info with
  | none => 0
  | some info => if info.isEmpty then 0 else (info.lookup "start").getD 0

/-- The inner loop of `_create_citation_nodes` (`for split in splits:`),
embedding the mutable `new_nodes` accumulator and `start_offset` exactly:
the citation number is `len(new_nodes) + 1`, the positional info is
`{"start": start_offset - num_char_overlap, "end": start_offset -
num_char_overlap + chunk_len}`, and `start_offset` then advances by
`chunk_len + 1`. -/
def processSplits (score : Option Int) (parent : Node) :
    List TextSplit → Int → List NodeWithScore → List NodeWithScore
  | [], _, new_nodes => new_nodes
  | split :: rest, start_offset, new_nodes =>
    let text := "Source " ++ toString (new_nodes.length + 1) ++ ":\n"
      ++ split.text_chunk ++ "\n"
    let num_char_overlap : Int := (split.num_char_overlap.getD 0 : Nat)
    let chunk_len : Int := (split.text_chunk.length : Nat)
    let new_node_info : List (String × Int) :=
      [("start", start_offset - num_char_overlap),
       ("end", start_offset - num_char_overlap + chunk_len)]
    processSplits score parent rest (start_offset + chunk_len + 1)
      (new_nodes ++
        [{ node :=
            { text := text
              extra_info := some (parent.extra_info.getD [])
              relationships := some (parent.relationships.getD [])
              node_info := some new_node_info }
           score := score }])

/-- Embedding of `_create_citation_nodes(self, nodes)`: the method ignores
`self.text_splitter` and builds a fresh `TokenTextSplitter(chunk_size=256,
chunk_overlap=20)`, then runs the per-passage loop threading the single
`new_nodes` accumulator through all passages. -/
def create_citation_nodes (tts : SplitterFamily) (nodes : List NodeWithScore) :
    List NodeWithScore :=
  let text_splitter := tts 256 20
  nodes.foldl
    (fun new_nodes node =>
      processSplits node.score node.node
        (text_splitter node.node.text) (nodeStartOffset node.node) new_nodes)
    []

/-! ## Specification-side description of the builder output -/

/-- The citation label the builder attaches: `"Source {number}:\n{chunk}\n"`. -/
def citationLabel (number : Nat) (chunk : String) : String :=
  "Source " ++ toString number ++ ":\n" ++ chunk ++ "\n"

/-- The node built for one chunk split, given the running citation count `k`
(so this node gets number `k + 1`) and the current passage offset. -/
def builtNode (score : Option Int) (parent : Node) (split : TextSplit)
    (off : Int) (k : Nat) : NodeWithScore :=
  { node :=
      { text := citationLabel (k + 1) split.text_chunk
        extra_info := some (parent.extra_info.getD [])
        relationships := some (parent.relationships.getD [])
        node_info := some
          [("start", off - (split.num_char_overlap.getD 0 : Nat)),
           ("end", off - (split.num_char_overlap.getD 0 : Nat)
              + (split.text_chunk.length : Nat))] }
    score := score }

/-- The nodes built for one passage, recursing over its splits while the
offset advances by `chunk_len + 1` and the citation count by one. -/
def buildPassage (score : Option Int) (parent : Node) :
    List TextSplit → Int → Nat → List NodeWithScore
  | [], _, _ => []
  | split :: rest, off, k =>
    builtNode score parent split off k ::
      buildPassage score parent rest
        (off + (split.text_chunk.length : Nat) + 1) (k + 1)

/-- The nodes built for a sequence of passages, threading the global
citation count across passages. -/
def buildAll (tts : SplitterFamily) : List NodeWithScore → Nat → List NodeWithScore
  | [], _ => []
  | n :: rest, k =>
    let pieces := buildPassage n.score n.node (tts 256 20 n.node.text)
      (nodeStartOffset n.node) k
    pieces ++ buildAll tts rest (k + pieces.length)

lemma buildPassage_length (score : Option Int) (parent : Node)
    (splits : List TextSplit) (off : Int) (k : Nat) :
    (buildPassage score parent splits off k).length = splits.length := by
  induction splits generalizing off k with
  | nil => rfl
  | cons s rest ih => simp [buildPassage, ih]

lemma processSplits_eq_append (score : Option Int) (parent : Node)
    (splits : List TextSplit) (off : Int) (acc : List NodeWithScore) :
    processSplits score parent splits off acc
      = acc ++ buildPassage score parent splits off acc.length := by
  induction splits generalizing off acc with
  | nil => simp [processSplits, buildPassage]
  | cons s rest ih =>
    simp only [processSplits, buildPassage, ih, List.length_append,
      List.length_singleton, List.append_assoc, List.singleton_append]
    rfl

lemma foldl_eq_buildAll (tts : SplitterFamily) (nodes : List NodeWithScore)
    (acc : List NodeWithScore) :
    nodes.foldl
      (fun new_nodes node =>
        processSplits node.score node.node
          (tts 256 20 node.node.text) (nodeStartOffset node.node) new_nodes)
      acc
      = acc ++ buildAll tts nodes acc.length := by
  induction nodes generalizing acc with
  | nil => simp [buildAll]
  | cons n rest ih =>
    simp only [List.foldl_cons, buildAll]
    rw [processSplits_eq_append, ih]
    simp [List.append_assoc, buildPassage_length]

/-- Structural characterisation of `_create_citation_nodes`: it equals the
per-passage builder run with global citation counter starting at 0. -/
lemma create_citation_nodes_eq (tts : SplitterFamily)
    (nodes : List NodeWithScore) :
    create_citation_nodes tts nodes = buildAll tts nodes 0 := by
  simpa using foldl_eq_buildAll tts nodes []

/-- Spec-side description of the labelled texts: the chunks of a flattened
split sequence, labelled `"Source {k+1}:"`, `"Source {k+2}:"`, … in order.
Starting from `k = 0` this is exactly "citation numbers form the contiguous
range `1..Σk_i`, strictly increasing in passage-then-chunk order". -/
def expectedLabels : List TextSplit → Nat → List String
  | [], _ => []
  | s :: rest, k => citationLabel (k + 1) s.text_chunk :: expectedLabels rest (k + 1)

/-- Spec-side description of the positional infos of one passage's citation
nodes: `newStart = startOffset - overlap`, `newEnd = newStart + chunkLen`,
then `startOffset` advances by `chunkLen + 1`. -/
def expectedOffsets : List TextSplit → Int → List (List (String × Int))
  | [], _ => []
  | s :: rest, off =>
    [("start", off - (s.num_char_overlap.getD 0 : Nat)),
     ("end", off - (s.num_char_overlap.getD 0 : Nat) + (s.text_chunk.length : Nat))]
      :: expectedOffsets rest (off + (s.text_chunk.length : Nat) + 1)

/-- The flattened list of chunk splits of all passages, in
passage-then-chunk order, as produced by the 256/20 citation splitter. -/
def allSplits (tts : SplitterFamily) (nodes : List NodeWithScore) : List TextSplit :=
  (nodes.map (fun n => tts 256 20 n.node.text)).flatten

lemma expectedLabels_append (a b : List TextSplit) (k : Nat) :
    expectedLabels (a ++ b) k = expectedLabels a k ++ expectedLabels b (k + a.length) := by
  induction a generalizing k with
  | nil => simp [expectedLabels]
  | cons s rest ih =>
    simp [expectedLabels, ih, Nat.add_assoc, Nat.add_comm 1 rest.length]

lemma buildPassage_texts (score : Option Int) (parent : Node)
    (splits : List TextSplit) (off : Int) (k : Nat) :
    (buildPassage score parent splits off k).map (fun nw => nw.node.text)
      = expectedLabels splits k := by
  induction splits generalizing off k with
  | nil => rfl
  | cons s rest ih => simp [buildPassage, expectedLabels, builtNode, ih]

lemma buildAll_texts (tts : SplitterFamily) (nodes : List NodeWithScore) (k : Nat) :
    (buildAll tts nodes k).map (fun nw => nw.node.text)
      = expectedLabels (allSplits tts nodes) k := by
  induction nodes generalizing k with
  | nil => simp [buildAll, allSplits, expectedLabels]
  | cons n rest ih =>
    simp only [buildAll, allSplits, List.map_cons, List.flatten_cons,
      List.map_append, expectedLabels_append, buildPassage_texts,
      buildPassage_length, ih]


lemma buildPassage_infos (score : Option Int) (parent : Node)
    (splits : List TextSplit) (off : Int) (k : Nat) :
    (buildPassage score parent splits off k).map (fun nw => nw.node.node_info)
      = (expectedOffsets splits off).map some := by
  induction splits generalizing off k with
  | nil => rfl
  | cons s rest ih => simp [buildPassage, expectedOffsets, builtNode, ih]

/-- The positional infos of all produced citation nodes, per passage: each
passage's offsets start from its own base offset, independently of the
global citation counter. -/
lemma buildAll_infos (tts : SplitterFamily) (nodes : List NodeWithScore) (k : Nat) :
    (buildAll tts nodes k).map (fun nw => nw.node.node_info)
      = ((nodes.map (fun n =>
            expectedOffsets (tts 256 20 n.node.text) (nodeStartOffset n.node))).flatten).map
          some := by
  induction nodes generalizing k with
  | nil => simp [buildAll]
  | cons n rest ih =>
    simp [buildAll, buildPassage_infos, ih]

lemma buildAll_length (tts : SplitterFamily) (nodes : List NodeWithScore) (k : Nat) :
    (buildAll tts nodes k).length
      = (nodes.map (fun n => (tts 256 20 n.node.text).length)).sum := by
  induction nodes generalizing k with
  | nil => simp [buildAll]
  | cons n rest ih => simp [buildAll, buildPassage_length, ih]

/-! ## The engine object and its configuration -/

def DEFAULT_SOURCE_CHUNK_SIZE : Nat := 512

def DEFAULT_SOURCE_CHUNK_OVERLAP : Nat := 20

/-- The state of a `CitaitonQueryEngine` object that the file's own code can
read: the passage-level splitter stored in `self.text_splitter`.  (The
retriever, synthesizer and callback manager are collaborators passed to the
run functions below.) -/
structure CitaitonQueryEngine where
  text_splitter : String → List TextSplit

/-- Embedding of `CitaitonQueryEngine.__init__`: stores `text_splitter or
TokenTextSplitter(chunk_size=source_chunk_size,
chunk_overlap=source_chunk_overlap)` in `self.text_splitter`. -/
def CitaitonQueryEngine.init (tts : SplitterFamily)
    (source_chunk_size source_chunk_overlap : Nat)
    (text_splitter : Option (String → List TextSplit)) : CitaitonQueryEngine :=
  { text_splitter :=
      text_splitter.getD (tts source_chunk_size source_chunk_overlap) }

/-- The method form of `_create_citation_nodes`: the body never reads
`self`; it builds its own `TokenTextSplitter(chunk_size=256, chunk_overlap=20)`. -/
def CitaitonQueryEngine.createCitationNodes (_self : CitaitonQueryEngine)
    (tts : SplitterFamily) (nodes : List NodeWithScore) : List NodeWithScore :=
  create_citation_nodes tts nodes

/-! ## Orchestration: collaborators, events, and the two query paths -/

/-- Embedding of `QueryBundle`: the query string (auxiliary representations are opaque
to this engine, which only reads `query_str`). -/
structure QueryBundle where
  query_str : String
deriving DecidableEq

/-- An observable step of a query run: the four callback notifications
(`on_event_start`/`on_event_end` for `QUERY` and `RETRIEVE`, with their
payloads) and the two collaborator invocations with their arguments. -/
inductive Action where
  | evQueryStart (query_str : String)
  | evRetrieveStart
  | evRetrieveEnd (nodes : List NodeWithScore)
  | evQueryEnd (response : String)
  | callRetrieve (qb : QueryBundle)
  | callSynthesize (qb : QueryBundle) (nodes : List NodeWithScore)
      (additional_source_nodes : Option (List NodeWithScore))
deriving DecidableEq

/-- Deterministic collaborators: the retriever (`retrieve`/`aretrieve`) and
the response synthesizer (`synthesize`/`asynthesize`, taking
`query_bundle`, `nodes` and `additional_source_nodes`).  Responses are
opaque to the engine and modelled as strings. -/
structure Collaborators where
  retrieve : QueryBundle → List NodeWithScore
  aretrieve : QueryBundle → List NodeWithScore
  synthesize : QueryBundle → List NodeWithScore →
    Option (List NodeWithScore) → String
  asynthesize : QueryBundle → List NodeWithScore →
    Option (List NodeWithScore) → String

/-- Embedding of `_query(self, query_bundle)`: start the QUERY event with payload
`{"query_str": …}`, start the RETRIEVE event, call `self._retriever.retrieve`,
build citation nodes, end the RETRIEVE event with payload `{"nodes": …}`,
call `self._response_synthesizer.synthesize` (no additional source nodes),
end the QUERY event with payload `{"response": …}`, return the response.
The result pairs the returned response with the observable action trace. -/
def query_run (tts : SplitterFamily) (c : Collaborators) (qb : QueryBundle) :
    String × List Action :=
  let t1 := [Action.evQueryStart qb.query_str, Action.evRetrieveStart,
    Action.callRetrieve qb]
  let nodes := create_citation_nodes tts (c.retrieve qb)
  let t2 := t1 ++ [Action.evRetrieveEnd nodes,
    Action.callSynthesize qb nodes none]
  let response := c.synthesize qb nodes none
  (response, t2 ++ [Action.evQueryEnd response])

/-- A collaborator call the coroutine suspends on (`await`). -/
inductive SuspPoint where
  | retrieveCall
  | synthesizeCall
deriving DecidableEq

/-- A suspendable computation: either finished, or suspended awaiting one
of the two collaborator operations, with a continuation for the result.
This is the shape of the Python coroutine: each `await` of a collaborator
call is one suspension constructor. -/
inductive Async (α : Type) where
  | pure (a : α)
  | awaitRetrieve (qb : QueryBundle) (k : List NodeWithScore → Async α)
  | awaitSynthesize (qb : QueryBundle) (nodes : List NodeWithScore)
      (additional_source_nodes : Option (List NodeWithScore))
      (k : String → Async α)

/-- Run a suspendable computation to completion against the collaborators,
recording the sequence of suspension points in order. -/
def Async.run (c : Collaborators) : Async α → α × List SuspPoint
  | .pure a => (a, [])
  | .awaitRetrieve qb k =>
    let r := (k (c.aretrieve qb)).run c
    (r.1, SuspPoint.retrieveCall :: r.2)
  | .awaitSynthesize qb nodes add k =>
    let r := (k (c.asynthesize qb nodes add)).run c
    (r.1, SuspPoint.synthesizeCall :: r.2)

/-- Embedding of `_aquery(self, query_bundle)` as a suspendable computation.  The body
is `_query` except that the synthesis step is `await
self._response_synthesizer.asynthesize(...)`; the retrieval step is the
plain synchronous `self._retriever.retrieve(query_bundle)` (line 283 of the
source — not `aretrieve`), and the chunking and event emission are ordinary
non-suspending statements. -/
def aquery_async (tts : SplitterFamily) (c : Collaborators) (qb : QueryBundle) :
    Async (String × List Action) :=
  let t1 := [Action.evQueryStart qb.query_str, Action.evRetrieveStart,
    Action.callRetrieve qb]
  let nodes := create_citation_nodes tts (c.retrieve qb)
  let t2 := t1 ++ [Action.evRetrieveEnd nodes,
    Action.callSynthesize qb nodes none]
  Async.awaitSynthesize qb nodes none (fun response =>
    Async.pure (response, t2 ++ [Action.evQueryEnd response]))

/-- The async path run to completion: its result (response and action
trace) and its suspension-point sequence. -/
def aquery_run (tts : SplitterFamily) (c : Collaborators) (qb : QueryBundle) :
    (String × List Action) × List SuspPoint :=
  (aquery_async tts c qb).run c

/-! ## Fallible collaborators and the failing query paths -/

/-- Collaborators whose operations may raise; an exception is modelled as
`Except.error` carrying an opaque message. -/
structure FallibleCollaborators where
  retrieve : QueryBundle → Except String (List NodeWithScore)
  synthesize : QueryBundle → List NodeWithScore →
    Option (List NodeWithScore) → Except String String
  asynthesize : QueryBundle → List NodeWithScore →
    Option (List NodeWithScore) → Except String String

/-- Embedding of `_query` when collaborators may raise: an exception propagates at the
point of the failing call, so the actions already performed stay performed
and nothing after the raise runs.  Returns the emitted action trace and
either the response or the propagated error. -/
def query_run_exc (tts : SplitterFamily) (c : FallibleCollaborators)
    (qb : QueryBundle) : List Action × Except String String :=
  let t1 := [Action.evQueryStart qb.query_str, Action.evRetrieveStart,
    Action.callRetrieve qb]
  match c.retrieve qb with
  | .error e => (t1, .error e)
  | .ok ns =>
    let nodes := create_citation_nodes tts ns
    let t2 := t1 ++ [Action.evRetrieveEnd nodes,
      Action.callSynthesize qb nodes none]
    match c.synthesize qb nodes none with
    | .error e => (t2, .error e)
    | .ok response => (t2 ++ [Action.evQueryEnd response], .ok response)

/-- Embedding of `_aquery` when collaborators may raise, run to completion: identical to
`query_run_exc` except the synthesis step is the awaited `asynthesize`. -/
def aquery_run_exc (tts : SplitterFamily) (c : FallibleCollaborators)
    (qb : QueryBundle) : List Action × Except String String :=
  let t1 := [Action.evQueryStart qb.query_str, Action.evRetrieveStart,
    Action.callRetrieve qb]
  match c.retrieve qb with
  | .error e => (t1, .error e)
  | .ok ns =>
    let nodes := create_citation_nodes tts ns
    let t2 := t1 ++ [Action.evRetrieveEnd nodes,
      Action.callSynthesize qb nodes none]
    match c.asynthesize qb nodes none with
    | .error e => (t2, .error e)
    | .ok response => (t2 ++ [Action.evQueryEnd response], .ok response)

/-! ## `synthesize` / `asynthesize` -/

/-- The argument triple the engine's `synthesize` passes to
`self._response_synthesizer.synthesize`: the query bundle unchanged, the
primary nodes replaced by their citation nodes, and
`additional_source_nodes` forwarded as received. -/
def synthInvocation (tts : SplitterFamily) (qb : QueryBundle)
    (nodes : List NodeWithScore)
    (additional_source_nodes : Option (List NodeWithScore)) :
    QueryBundle × List NodeWithScore × Option (List NodeWithScore) :=
  (qb, create_citation_nodes tts nodes, additional_source_nodes)

/-- Embedding of `CitaitonQueryEngine.synthesize`: chunk the primary nodes, then
delegate to the synthesizer with the invocation above. -/
def engine_synthesize (tts : SplitterFamily) (c : Collaborators)
    (qb : QueryBundle) (nodes : List NodeWithScore)
    (additional_source_nodes : Option (List NodeWithScore)) : String :=
  let i := synthInvocation tts qb nodes additional_source_nodes
  c.synthesize i.1 i.2.1 i.2.2

/-- Embedding of `CitaitonQueryEngine.asynthesize`: same, awaiting
`self._response_synthesizer.asynthesize`. -/
def engine_asynthesize (tts : SplitterFamily) (c : Collaborators)
    (qb : QueryBundle) (nodes : List NodeWithScore)
    (additional_source_nodes : Option (List NodeWithScore)) : String :=
  let i := synthInvocation tts qb nodes additional_source_nodes
  c.asynthesize i.1 i.2.1 i.2.2

/-! ## Concrete fixtures for witnesses and examples -/

/-- A 30-character passage text. -/
def text30 : String := "abcdefghijklmnopqrstuvwxyz0123"

/-- A concrete splitter behaviour that cuts any text into a 20-character
chunk and an 11-character chunk overlapping it by one character (the shape
of the spec's offset-arithmetic example). -/
def splitter2011 : SplitterFamily := fun _ _ t =>
  [{ text_chunk := t.take 20, num_char_overlap := none },
   { text_chunk := t.drop 19, num_char_overlap := some 1 }]

/-- A passage whose positional info declares `start = 100`. -/
def passage100 : NodeWithScore :=
  { node :=
      { text := text30
        extra_info := none
        relationships := none
        node_info := some [("start", 100)] }
    score := some 5 }

/-- A passage carrying no positional info. -/
def passageNoInfo : NodeWithScore :=
  { node :=
      { text := text30
        extra_info := none
        relationships := none
        node_info := none }
    score := none }

/-- Deterministic stub collaborators whose async operations agree with
their sync operations. -/
def stubCollab : Collaborators :=
  { retrieve := fun _ => [passage100]
    aretrieve := fun _ => [passage100]
    synthesize := fun qb nodes _ => qb.query_str ++ "/" ++ toString nodes.length
    asynthesize := fun qb nodes _ => qb.query_str ++ "/" ++ toString nodes.length }

/-- Fallible collaborators whose retriever always raises. -/
def failingRetrieverCollab : FallibleCollaborators :=
  { retrieve := fun _ => .error "retriever boom"
    synthesize := fun _ _ _ => .ok "answer"
    asynthesize := fun _ _ _ => .ok "answer" }

/-- Fallible collaborators whose synthesizer always raises. -/
def failingSynthCollab : FallibleCollaborators :=
  { retrieve := fun _ => .ok [passage100]
    synthesize := fun _ _ _ => .error "synth boom"
    asynthesize := fun _ _ _ => .error "synth boom" }

/-! ## Claim theorems -/

/-- C1: for every ordered sequence of passages, `_create_citation_nodes`
produces one citation node per chunk split (so `Σ k_i` nodes in total),
and the node texts are exactly `"Source {n}:\n{chunkText}\n"` with `n`
running contiguously through `1..Σ k_i` in passage-then-chunk order, no
number reused. -/
theorem citation_numbers_contiguous (tts : SplitterFamily)
    (nodes : List NodeWithScore) :
    (create_citation_nodes tts nodes).map (fun nw => nw.node.text)
        = expectedLabels (allSplits tts nodes) 0
      ∧ (create_citation_nodes tts nodes).length
        = (nodes.map (fun n => (tts 256 20 n.node.text).length)).sum := by
  rw [create_citation_nodes_eq]
  exact ⟨buildAll_texts tts nodes 0, buildAll_length tts nodes 0⟩

set_option maxRecDepth 4000 in
/-- C2: the builder assigns the `j`-th citation node of a passage the
offsets `newStart = startOffset - overlap_j`, `newEnd = newStart + L_j`,
advancing `startOffset` by `L_j + 1`; in particular a passage declaring
`start = 100` split into chunks of lengths 20 and 11 with one char overlap
yields offsets `{start:100, end:120}` and `{start:120, end:131}`. -/
theorem citation_offset_arithmetic (tts : SplitterFamily)
    (nodes : List NodeWithScore) :
    ((create_citation_nodes tts nodes).map (fun nw => nw.node.node_info)
        = ((nodes.map (fun n =>
              expectedOffsets (tts 256 20 n.node.text)
                (nodeStartOffset n.node))).flatten).map some)
      ∧ ((create_citation_nodes splitter2011 [passage100]).map
            (fun nw => nw.node.node_info)
          = [some [("start", 100), ("end", 120)],
             some [("start", 120), ("end", 131)]]) := by
  constructor
  · rw [create_citation_nodes_eq]
    exact buildAll_infos tts nodes 0
  · decide

/-- C4: a successful blocking query emits, in order: query-start with the
query string, retrieval-start, the retriever call, retrieval-end carrying
the already-chunked citation nodes, the synthesizer call, and query-end
carrying the response that is returned. -/
theorem query_event_order (tts : SplitterFamily) (c : Collaborators)
    (qb : QueryBundle) :
    query_run tts c qb
      = (c.synthesize qb (create_citation_nodes tts (c.retrieve qb)) none,
         [Action.evQueryStart qb.query_str, Action.evRetrieveStart,
          Action.callRetrieve qb,
          Action.evRetrieveEnd (create_citation_nodes tts (c.retrieve qb)),
          Action.callSynthesize qb
            (create_citation_nodes tts (c.retrieve qb)) none,
          Action.evQueryEnd
            (c.synthesize qb (create_citation_nodes tts (c.retrieve qb)) none)]) :=
  rfl

/-- C6: `synthesize`/`asynthesize` forward `additional_source_nodes` to
the synthesizer exactly as given (never chunked, never relabelled), and
the citation nodes passed as the primary `nodes` argument do not depend on
the additional nodes. -/
theorem additional_source_nodes_passthrough (tts : SplitterFamily)
    (c : Collaborators) (qb : QueryBundle) (nodes : List NodeWithScore)
    (add : Option (List NodeWithScore)) :
    (synthInvocation tts qb nodes add).2.2 = add
      ∧ (∀ add', (synthInvocation tts qb nodes add').2.1
          = create_citation_nodes tts nodes)
      ∧ engine_synthesize tts c qb nodes add
          = c.synthesize qb (create_citation_nodes tts nodes) add
      ∧ engine_asynthesize tts c qb nodes add
          = c.asynthesize qb (create_citation_nodes tts nodes) add :=
  ⟨rfl, fun _ => rfl, rfl, rfl⟩

/-- C3: with deterministic collaborators whose async operations return the
same content as their sync operations, the non-blocking path `_aquery`
produces the same response and the same action (notification and
collaborator-call) sequence as the blocking path `_query`. -/
theorem sync_async_paths_equal (tts : SplitterFamily) (c : Collaborators)
    (qb : QueryBundle) (_hr : c.aretrieve = c.retrieve)
    (hs : c.asynthesize = c.synthesize) :
    (aquery_run tts c qb).1 = query_run tts c qb := by
  simp [aquery_run, aquery_async, Async.run, query_run, hs]

/-- Witness for C3 at concrete stub collaborators. -/
theorem sync_async_paths_equal_witness :
    (aquery_run splitter2011 stubCollab { query_str := "q" }).1
      = query_run splitter2011 stubCollab { query_str := "q" } :=
  sync_async_paths_equal splitter2011 stubCollab { query_str := "q" } rfl rfl

/-- C5: citation chunking is fixed at the 256/20 splitter: the
`_create_citation_nodes` output is the same for any two engines differing
only in `source_chunk_size`, `source_chunk_overlap` or `text_splitter`,
and depends on the splitter behaviour only through its 256/20 instance. -/
theorem citation_chunking_ignores_engine_config (tts : SplitterFamily)
    (s1 o1 s2 o2 : Nat) (t1 t2 : Option (String → List TextSplit))
    (nodes : List NodeWithScore) :
    ((CitaitonQueryEngine.init tts s1 o1 t1).createCitationNodes tts nodes
        = (CitaitonQueryEngine.init tts s2 o2 t2).createCitationNodes tts nodes)
      ∧ (∀ tts' : SplitterFamily, tts' 256 20 = tts 256 20 →
          create_citation_nodes tts' nodes = create_citation_nodes tts nodes) := by
  refine ⟨rfl, fun tts' h => ?_⟩
  simp only [create_citation_nodes, h]

/-- Witness for C5 at concrete configurations. -/
theorem citation_chunking_ignores_engine_config_witness :
    ((CitaitonQueryEngine.init splitter2011 512 20 none).createCitationNodes
          splitter2011 [passage100]
        = (CitaitonQueryEngine.init splitter2011 7 3
            (some (fun t => [{ text_chunk := t, num_char_overlap := none }]))).createCitationNodes
            splitter2011 [passage100])
      ∧ create_citation_nodes (fun a b t => splitter2011 a b t) [passage100]
          = create_citation_nodes splitter2011 [passage100] :=
  ⟨(citation_chunking_ignores_engine_config splitter2011 512 20 7 3 none
      (some (fun t => [{ text_chunk := t, num_char_overlap := none }])) [passage100]).1,
   (citation_chunking_ignores_engine_config splitter2011 512 20 7 3 none
      (some (fun t => [{ text_chunk := t, num_char_overlap := none }])) [passage100]).2
      (fun a b t => splitter2011 a b t) rfl⟩

set_option maxRecDepth 4000 in
/-- C9 counterexample: in `_aquery` the retrieval step is the plain
synchronous `self._retriever.retrieve` call, so it is not a suspension
point: at concrete collaborators the run suspends exactly once, at the
synthesis call, refuting the claim that the retrieval call also suspends
through the retriever's async-equivalent operation. -/
theorem aquery_retrieve_not_suspended :
    SuspPoint.retrieveCall
        ∉ (aquery_run splitter2011 stubCollab { query_str := "q" }).2
      ∧ (aquery_run splitter2011 stubCollab { query_str := "q" }).2
        = [SuspPoint.synthesizeCall] := by
  decide

/-- C9 amended: in the non-blocking query path the only suspension point
is the synthesis call (`await asynthesize`); the retrieval step runs the
retriever's synchronous operation without suspending, and the engine's own
chunking and numbering logic never suspends. -/
theorem aquery_only_synthesis_suspends (tts : SplitterFamily)
    (c : Collaborators) (qb : QueryBundle) :
    (aquery_run tts c qb).2 = [SuspPoint.synthesizeCall] :=
  rfl

/-- The field triple (metadata map, relationship map, score) every citation
node derived from the passage `n` must carry: the parent's `extra_info or {}`,
the parent's `relationships or {}`, and the parent's score. -/
def parentFields (n : NodeWithScore) :
    Option (List (String × String)) × Option (List (String × String)) × Option Int :=
  (some (n.node.extra_info.getD []), some (n.node.relationships.getD []), n.score)

lemma buildPassage_fields (score : Option Int) (parent : Node)
    (splits : List TextSplit) (off : Int) (k : Nat) :
    (buildPassage score parent splits off k).map
        (fun nw => (nw.node.extra_info, nw.node.relationships, nw.score))
      = List.replicate splits.length
          (some (parent.extra_info.getD []),
           some (parent.relationships.getD []), score) := by
  induction splits generalizing off k with
  | nil => rfl
  | cons s rest ih =>
    simp [buildPassage, builtNode, List.replicate_succ, ih]

lemma buildAll_fields (tts : SplitterFamily) (nodes : List NodeWithScore)
    (k : Nat) :
    (buildAll tts nodes k).map
        (fun nw => (nw.node.extra_info, nw.node.relationships, nw.score))
      = (nodes.map (fun n =>
          List.replicate (tts 256 20 n.node.text).length (parentFields n))).flatten := by
  induction nodes generalizing k with
  | nil => simp [buildAll]
  | cons n rest ih =>
    simp [buildAll, buildPassage_fields, parentFields, ih]

/-- C7: every citation node carries exactly its own parent passage's
metadata map and relationship map (the empty map when the parent's is
absent) and exactly the parent's score.  Positionally: in the output's
passage-then-chunk order, passage `i` contributes its `k_i` consecutive
nodes all carrying passage `i`'s field triple, so no builder operation
alters these fields or mixes them across passages. -/
theorem citation_nodes_preserve_parent_fields (tts : SplitterFamily)
    (nodes : List NodeWithScore) :
    (create_citation_nodes tts nodes).map
        (fun nw => (nw.node.extra_info, nw.node.relationships, nw.score))
      = (nodes.map (fun n =>
          List.replicate (tts 256 20 n.node.text).length (parentFields n))).flatten := by
  rw [create_citation_nodes_eq]
  exact buildAll_fields tts nodes 0

/-- C8: a passage carrying no positional info is not an error: the builder
uses base offset 0 for it, so its nodes follow the usual advance rule from
a zero base, and (when the first chunk has no declared overlap, as the
splitter contract guarantees) the first citation node gets offsets
`{start: 0, end: chunkLength}`. -/
theorem missing_positional_info_defaults_zero (tts : SplitterFamily)
    (n : NodeWithScore) (h : n.node.node_info = none) :
    ((create_citation_nodes tts [n]).map (fun nw => nw.node.node_info)
        = (expectedOffsets (tts 256 20 n.node.text) 0).map some)
      ∧ (∀ s rest, tts 256 20 n.node.text = s :: rest →
          s.num_char_overlap.getD 0 = 0 →
          ((create_citation_nodes tts [n]).map
              (fun nw => nw.node.node_info)).head?
            = some (some [("start", 0),
                ("end", (s.text_chunk.length : Int))])) := by
  have hoff : nodeStartOffset n.node = 0 := by
    simp [nodeStartOffset, h]
  have hmain : (create_citation_nodes tts [n]).map (fun nw => nw.node.node_info)
      = (expectedOffsets (tts 256 20 n.node.text) 0).map some := by
    rw [create_citation_nodes_eq]
    simpa [hoff] using buildAll_infos tts [n] 0
  refine ⟨hmain, fun s rest hs hov => ?_⟩
  rw [hmain, hs]
  simp [expectedOffsets, hov]

set_option maxRecDepth 4000 in
/-- Witness for C8: `passageNoInfo` gets offsets from base 0, its first
node spanning `{start: 0, end: 20}`. -/
theorem missing_positional_info_defaults_zero_witness :
    ((create_citation_nodes splitter2011 [passageNoInfo]).map
          (fun nw => nw.node.node_info)
        = (expectedOffsets (splitter2011 256 20 passageNoInfo.node.text) 0).map
            some)
      ∧ ((create_citation_nodes splitter2011 [passageNoInfo]).map
            (fun nw => nw.node.node_info)).head?
          = some (some [("start", 0),
              ("end", ((text30.take 20).length : Int))]) :=
  ⟨(missing_positional_info_defaults_zero splitter2011 passageNoInfo rfl).1,
   (missing_positional_info_defaults_zero splitter2011 passageNoInfo rfl).2
      { text_chunk := text30.take 20, num_char_overlap := none }
      [{ text_chunk := text30.drop 19, num_char_overlap := some 1 }]
      rfl rfl⟩

/-- C10: on the failing paths the start notifications already emitted stay
emitted but no matching end notification follows, and the error
propagates: a retriever failure leaves exactly query-start and
retrieval-start emitted (no retrieval-end, no query-end) in both the
blocking and non-blocking paths; a synthesizer failure leaves
retrieval-end emitted but never query-end. -/
theorem failure_event_pairing (tts : SplitterFamily)
    (c : FallibleCollaborators) (qb : QueryBundle) :
    (∀ e, c.retrieve qb = .error e →
        query_run_exc tts c qb
            = ([Action.evQueryStart qb.query_str, Action.evRetrieveStart,
                Action.callRetrieve qb], .error e)
          ∧ aquery_run_exc tts c qb
            = ([Action.evQueryStart qb.query_str, Action.evRetrieveStart,
                Action.callRetrieve qb], .error e)
          ∧ (∀ ns, Action.evRetrieveEnd ns ∉ (query_run_exc tts c qb).1)
          ∧ (∀ r, Action.evQueryEnd r ∉ (query_run_exc tts c qb).1))
      ∧ (∀ ns e, c.retrieve qb = .ok ns →
          c.synthesize qb (create_citation_nodes tts ns) none = .error e →
          query_run_exc tts c qb
              = ([Action.evQueryStart qb.query_str, Action.evRetrieveStart,
                  Action.callRetrieve qb,
                  Action.evRetrieveEnd (create_citation_nodes tts ns),
                  Action.callSynthesize qb (create_citation_nodes tts ns) none],
                 .error e)
            ∧ (∀ r, Action.evQueryEnd r ∉ (query_run_exc tts c qb).1))
      ∧ (∀ ns e, c.retrieve qb = .ok ns →
          c.asynthesize qb (create_citation_nodes tts ns) none = .error e →
          aquery_run_exc tts c qb
              = ([Action.evQueryStart qb.query_str, Action.evRetrieveStart,
                  Action.callRetrieve qb,
                  Action.evRetrieveEnd (create_citation_nodes tts ns),
                  Action.callSynthesize qb (create_citation_nodes tts ns) none],
                 .error e)
            ∧ (∀ r, Action.evQueryEnd r ∉ (aquery_run_exc tts c qb).1)) := by
  refine ⟨fun e he => ?_, fun ns e hok hse => ?_, fun ns e hok hse => ?_⟩
  · refine ⟨?_, ?_, ?_, ?_⟩
    · simp [query_run_exc, he]
    · simp [aquery_run_exc, he]
    · intro ns
      simp [query_run_exc, he]
    · intro r
      simp [query_run_exc, he]
  · refine ⟨?_, ?_⟩
    · simp [query_run_exc, hok, hse]
    · intro r
      simp [query_run_exc, hok, hse]
  · refine ⟨?_, ?_⟩
    · simp [aquery_run_exc, hok, hse]
    · intro r
      simp [aquery_run_exc, hok, hse]

/-- Witness for C10: a failing retriever and a failing synthesizer at
concrete inputs. -/
theorem failure_event_pairing_witness :
    query_run_exc splitter2011 failingRetrieverCollab { query_str := "q" }
        = ([Action.evQueryStart "q", Action.evRetrieveStart,
            Action.callRetrieve { query_str := "q" }], .error "retriever boom")
      ∧ query_run_exc splitter2011 failingSynthCollab { query_str := "q" }
          = ([Action.evQueryStart "q", Action.evRetrieveStart,
              Action.callRetrieve { query_str := "q" },
              Action.evRetrieveEnd
                (create_citation_nodes splitter2011 [passage100]),
              Action.callSynthesize { query_str := "q" }
                (create_citation_nodes splitter2011 [passage100]) none],
             .error "synth boom") :=
  ⟨((failure_event_pairing splitter2011 failingRetrieverCollab
      { query_str := "q" }).1 "retriever boom" rfl).1,
   ((failure_event_pairing splitter2011 failingSynthCollab
      { query_str := "q" }).2.1 [passage100] "synth boom" rfl rfl).1⟩

end CitationEngine
